import Mathlib

/-!
Verification of the arthsutra double-entry bookkeeping core
(backend/accounting: enums.py, validation.py, ledger.py).

The Python source is shallowly embedded: enums become inductive types,
dataclasses become structures, floats become exact rationals (`Rat`),
`None`-able fields become `Option`, and the raising functions return
`Except`.  Python truthiness on optional ids / strings (`if not x`) is
modelled explicitly: `none`, `some 0` and `some ""` are falsy.
-/

-- ═══ enums.py ══════════════════════════════════════════════════════════

/-- Top-level type: does money enter, leave, or move internally? -/
inductive TransactionType where
  | INCOME
  | EXPENSE
  | TRANSFER
deriving DecidableEq, Fintype, Repr

/-- Second dimension: WHY did the money move? -/
inductive TransactionNature where
  | SALARY
  | BUSINESS_INCOME
  | INVESTMENT_INCOME
  | GIFT_RECEIVED
  | REFUND
  | OTHER_INCOME
  | PURCHASE
  | SUBSCRIPTION
  | BILL_PAYMENT
  | REIMBURSEMENT_PAID
  | GIFT_GIVEN
  | OTHER_EXPENSE
  | INTERNAL_TRANSFER
  | CC_BILL_PAYMENT
  | REIMBURSEMENT_RECEIVED
  | LOAN_GIVEN
  | LOAN_RECEIVED
  | LOAN_REPAID
  | ADJUSTMENT
deriving DecidableEq, Fintype, Repr

/-- Double-entry account classification. -/
inductive AccountingType where
  | ASSET
  | LIABILITY
  | RECEIVABLE
  | PAYABLE
deriving DecidableEq, Fintype, Repr

/-- Mapping from the existing account_type label to an AccountingType
(the dict ACCOUNT_TYPE_TO_ACCOUNTING of enums.py). -/
def ACCOUNT_TYPE_TO_ACCOUNTING : List (String × AccountingType) :=
  [ ("savings", AccountingType.ASSET)
  , ("current", AccountingType.ASSET)
  , ("salary", AccountingType.ASSET)
  , ("NRO", AccountingType.ASSET)
  , ("NRE", AccountingType.ASSET)
  , ("credit_card", AccountingType.LIABILITY)
  , ("overdraft", AccountingType.LIABILITY)
  , ("FD", AccountingType.ASSET)
  , ("RD", AccountingType.ASSET)
  , ("PPF", AccountingType.ASSET)
  , ("EPF", AccountingType.ASSET)
  , ("NPS", AccountingType.ASSET)
  , ("stocks", AccountingType.ASSET)
  , ("mutual_funds", AccountingType.ASSET)
  , ("bonds", AccountingType.ASSET)
  , ("crypto", AccountingType.ASSET)
  , ("wallet", AccountingType.ASSET)
  , ("cash", AccountingType.ASSET)
  , ("other", AccountingType.ASSET)
  , ("receivable", AccountingType.RECEIVABLE)
  , ("payable", AccountingType.PAYABLE) ]

/-- Derive AccountingType from an existing account_type string
(`.get(account_type, AccountingType.ASSET)`). -/
def infer_accounting_type (account_type : String) : AccountingType :=
  (ACCOUNT_TYPE_TO_ACCOUNTING.lookup account_type).getD AccountingType.ASSET

/-- The allowed natures per transaction type (dict VALID_NATURE_FOR_TYPE). -/
def VALID_NATURE_FOR_TYPE : TransactionType → List TransactionNature
  | TransactionType.INCOME =>
      [ TransactionNature.SALARY
      , TransactionNature.BUSINESS_INCOME
      , TransactionNature.INVESTMENT_INCOME
      , TransactionNature.GIFT_RECEIVED
      , TransactionNature.REFUND
      , TransactionNature.OTHER_INCOME ]
  | TransactionType.EXPENSE =>
      [ TransactionNature.PURCHASE
      , TransactionNature.SUBSCRIPTION
      , TransactionNature.BILL_PAYMENT
      , TransactionNature.REIMBURSEMENT_PAID
      , TransactionNature.GIFT_GIVEN
      , TransactionNature.OTHER_EXPENSE ]
  | TransactionType.TRANSFER =>
      [ TransactionNature.INTERNAL_TRANSFER
      , TransactionNature.CC_BILL_PAYMENT
      , TransactionNature.REIMBURSEMENT_RECEIVED
      , TransactionNature.LOAN_GIVEN
      , TransactionNature.LOAN_RECEIVED
      , TransactionNature.LOAN_REPAID
      , TransactionNature.ADJUSTMENT ]

/-- Check that the nature is valid for the given type. -/
def is_valid_nature_for_type
    (txn_type : TransactionType) (txn_nature : TransactionNature) : Bool :=
  decide (txn_nature ∈ VALID_NATURE_FOR_TYPE txn_type)

-- ═══ Python truthiness helpers ═════════════════════════════════════════

/-- Python truthiness of an optional integer: `None` and `0` are falsy. -/
def intTruthy : Option Int → Bool
  | none => false
  | some n => n != 0

/-- Python truthiness of an optional string: `None` and `""` are falsy. -/
def strTruthy : Option String → Bool
  | none => false
  | some s => s != ""

/-- Python `x or 0` on an optional integer. -/
def pyOrZero (o : Option Int) : Int :=
  if intTruthy o then o.getD 0 else 0

-- ═══ validation.py ═════════════════════════════════════════════════════

/-- Lightweight DTO for pre-validation (dataclass TransactionInput). -/
structure TransactionInput where
  transaction_type : TransactionType
  transaction_nature : TransactionNature
  amount : Rat
  currency : String
  from_account_id : Option Int
  to_account_id : Option Int
  from_account_type : Option String
  to_account_type : Option String
  category : Option String
  counterparty : Option String
  notes : Option String
deriving DecidableEq, Repr

/-- Violation message of _check_amount. -/
def msg_amount : String := "Amount must be positive."

/-- Violation message of _check_nature_type_match.  The source interpolates
the nature and type values into the text; the surrounding words are kept. -/
def msg_nature_type : String := "Nature is not valid for type."

/-- Violation message of _check_expense_has_category. -/
def msg_expense_category : String := "EXPENSE transactions require a category."

/-- Violation message of _check_income_no_from_account. -/
def msg_income_from : String :=
  "INCOME transactions must not have a from_account (money flows inward)."

/-- Violation message of _check_transfer_has_both_accounts. -/
def msg_transfer_accounts : String :=
  "TRANSFER transactions require both from_account and to_account."

/-- Violation message of _check_loan_has_counterparty. -/
def msg_loan_counterparty : String :=
  "Loan transactions require a counterparty name."

/-- Violation message for an INTERNAL_TRANSFER class-pairing failure. -/
def msg_internal_transfer : String :=
  "INTERNAL_TRANSFER requires both accounts to be ASSET type."

/-- Violation message for a CC_BILL_PAYMENT class-pairing failure. -/
def msg_cc_bill_payment : String :=
  "CC_BILL_PAYMENT must flow from ASSET to LIABILITY account."

/-- Violation message for a LOAN_GIVEN class-pairing failure. -/
def msg_loan_given : String :=
  "LOAN_GIVEN must flow from ASSET to RECEIVABLE account."

/-- Violation message for a LOAN_RECEIVED class-pairing failure. -/
def msg_loan_received : String :=
  "LOAN_RECEIVED must flow from PAYABLE to ASSET account."

/-- Violation message for a LOAN_REPAID class-pairing failure. -/
def msg_loan_repaid : String :=
  "LOAN_REPAID: must be Receivable to Asset (friend repays me) or Asset to Payable (I repay friend)."

/-- Violation message for a REIMBURSEMENT_RECEIVED class-pairing failure. -/
def msg_reimbursement : String :=
  "REIMBURSEMENT_RECEIVED must flow into an ASSET account."

/-- Violation message of _check_no_expense_to_receivable. -/
def msg_expense_receivable : String :=
  "Cannot route an EXPENSE to a RECEIVABLE account."

/-- Rule: amount must be positive. -/
def _check_amount (txn : TransactionInput) (errors : List String) : List String :=
  if txn.amount ≤ 0 then errors ++ [msg_amount] else errors

/-- Rule: the nature must be valid for the type. -/
def _check_nature_type_match (txn : TransactionInput) (errors : List String) : List String :=
  if ¬ is_valid_nature_for_type txn.transaction_type txn.transaction_nature then
    errors ++ [msg_nature_type]
  else errors

/-- Rule: EXPENSE requires a category. -/
def _check_expense_has_category (txn : TransactionInput) (errors : List String) : List String :=
  if txn.transaction_type = TransactionType.EXPENSE ∧ ¬ strTruthy txn.category then
    errors ++ [msg_expense_category]
  else errors

/-- Rule: income flows INTO an account; fromAccount should be null.  The
source tests `txn.from_account_id` by Python truthiness. -/
def _check_income_no_from_account (txn : TransactionInput) (errors : List String) : List String :=
  if txn.transaction_type = TransactionType.INCOME ∧ intTruthy txn.from_account_id then
    errors ++ [msg_income_from]
  else errors

/-- Rule: a transfer needs both accounts (by Python truthiness of the ids). -/
def _check_transfer_has_both_accounts (txn : TransactionInput) (errors : List String) : List String :=
  if txn.transaction_type = TransactionType.TRANSFER then
    if ¬ intTruthy txn.from_account_id ∨ ¬ intTruthy txn.to_account_id then
      errors ++ [msg_transfer_accounts]
    else errors
  else errors

/-- Rule: loan natures require a counterparty name. -/
def _check_loan_has_counterparty (txn : TransactionInput) (errors : List String) : List String :=
  if (txn.transaction_nature = TransactionNature.LOAN_GIVEN ∨
      txn.transaction_nature = TransactionNature.LOAN_RECEIVED ∨
      txn.transaction_nature = TransactionNature.LOAN_REPAID) ∧
      ¬ strTruthy txn.counterparty then
    errors ++ [msg_loan_counterparty]
  else errors

/-- Rule: validate that account types make sense for the transaction nature. -/
def _check_account_type_movements (txn : TransactionInput) (errors : List String) : List String :=
  if txn.transaction_type ≠ TransactionType.TRANSFER then errors
  else if ¬ strTruthy txn.from_account_type ∨ ¬ strTruthy txn.to_account_type then
    errors
  else
    let from_acct := infer_accounting_type (txn.from_account_type.getD "")
    let to_acct := infer_accounting_type (txn.to_account_type.getD "")
    let nature := txn.transaction_nature
    if nature = TransactionNature.INTERNAL_TRANSFER then
      if from_acct ≠ AccountingType.ASSET ∨ to_acct ≠ AccountingType.ASSET then
        errors ++ [msg_internal_transfer]
      else errors
    else if nature = TransactionNature.CC_BILL_PAYMENT then
      if from_acct ≠ AccountingType.ASSET ∨ to_acct ≠ AccountingType.LIABILITY then
        errors ++ [msg_cc_bill_payment]
      else errors
    else if nature = TransactionNature.LOAN_GIVEN then
      if from_acct ≠ AccountingType.ASSET ∨ to_acct ≠ AccountingType.RECEIVABLE then
        errors ++ [msg_loan_given]
      else errors
    else if nature = TransactionNature.LOAN_RECEIVED then
      if from_acct ≠ AccountingType.PAYABLE ∨ to_acct ≠ AccountingType.ASSET then
        errors ++ [msg_loan_received]
      else errors
    else if nature = TransactionNature.LOAN_REPAID then
      if (from_acct, to_acct) ∉
          [ (AccountingType.RECEIVABLE, AccountingType.ASSET)
          , (AccountingType.ASSET, AccountingType.PAYABLE) ] then
        errors ++ [msg_loan_repaid]
      else errors
    else if nature = TransactionNature.REIMBURSEMENT_RECEIVED then
      if to_acct ≠ AccountingType.ASSET then
        errors ++ [msg_reimbursement]
      else errors
    else errors

/-- Rule: block nonsensical flows like Expense to Receivable. -/
def _check_no_expense_to_receivable (txn : TransactionInput) (errors : List String) : List String :=
  if txn.transaction_type = TransactionType.EXPENSE ∧ strTruthy txn.to_account_type then
    if infer_accounting_type (txn.to_account_type.getD "") = AccountingType.RECEIVABLE then
      errors ++ [msg_expense_receivable]
    else errors
  else errors

/-- The ordered rule list ALL_RULES of validation.py. -/
def ALL_RULES : List (TransactionInput → List String → List String) :=
  [ _check_amount
  , _check_nature_type_match
  , _check_expense_has_category
  , _check_income_no_from_account
  , _check_transfer_has_both_accounts
  , _check_loan_has_counterparty
  , _check_account_type_movements
  , _check_no_expense_to_receivable ]

/-- Exception raised when a transaction violates accounting rules; it
carries the list of error messages. -/
structure ValidationError where
  errors : List String
deriving DecidableEq, Repr

/-- Run all validation rules; raise ValidationError if any rule fails,
otherwise return the (empty) error list. -/
def validate_transaction (txn : TransactionInput) :
    Except ValidationError (List String) :=
  let errors := ALL_RULES.foldl (fun errs rule => rule txn errs) []
  if errors ≠ [] then Except.error ⟨errors⟩ else Except.ok errors

/-- Same checks as validate_transaction but returns the errors instead
of raising. -/
def validate_transaction_soft (txn : TransactionInput) : List String :=
  ALL_RULES.foldl (fun errs rule => rule txn errs) []

-- ═══ ledger.py ═════════════════════════════════════════════════════════

/-- In-memory ledger entry before persistence (dataclass LedgerEntryDTO).
The datetime is modelled as an opaque integer timestamp. -/
structure LedgerEntryDTO where
  transaction_id : Int
  account_id : Int
  debit : Rat
  credit : Rat
  entry_date : Option Int
  description : String
deriving DecidableEq, Repr

/-- Sum of the debit fields (`sum(e.debit for e in entries)`). -/
def totalDebit (entries : List LedgerEntryDTO) : Rat :=
  (entries.map (fun e => e.debit)).sum

/-- Sum of the credit fields (`sum(e.credit for e in entries)`). -/
def totalCredit (entries : List LedgerEntryDTO) : Rat :=
  (entries.map (fun e => e.credit)).sum

/-- Income: debit the receiving account (0 if none), credit the virtual
income account 0 (LedgerEngine._income_entries). -/
def _income_entries (txn_id : Int) (amount : Rat)
    (to_account_id : Option Int) (_to_account_type : Option String)
    (date : Int) (desc : String) : List LedgerEntryDTO :=
  let acct_id := pyOrZero to_account_id
  [ { transaction_id := txn_id, account_id := acct_id
    , debit := amount, credit := 0
    , entry_date := some date, description := "Income: " ++ desc }
  , { transaction_id := txn_id, account_id := 0
    , debit := 0, credit := amount
    , entry_date := some date, description := "Income: " ++ desc } ]

/-- Expense: debit the virtual expense account 0, credit the paying
account (LedgerEngine._expense_entries). -/
def _expense_entries (txn_id : Int) (amount : Rat)
    (from_account_id : Option Int) (_from_account_type : Option String)
    (date : Int) (desc : String) : List LedgerEntryDTO :=
  let acct_id := pyOrZero from_account_id
  [ { transaction_id := txn_id, account_id := 0
    , debit := amount, credit := 0
    , entry_date := some date, description := "Expense: " ++ desc }
  , { transaction_id := txn_id, account_id := acct_id
    , debit := 0, credit := amount
    , entry_date := some date, description := "Expense: " ++ desc } ]

/-- Whether each side of a transfer INCREASES, per its nature
(LedgerEngine._get_transfer_impacts).  Returns (from_increases, to_increases). -/
def _get_transfer_impacts (nature : TransactionNature)
    (from_acct : AccountingType) (_to_acct : AccountingType) : Bool × Bool :=
  if nature = TransactionNature.INTERNAL_TRANSFER then (false, true)
  else if nature = TransactionNature.CC_BILL_PAYMENT then (false, false)
  else if nature = TransactionNature.LOAN_GIVEN then (false, true)
  else if nature = TransactionNature.LOAN_RECEIVED then (true, true)
  else if nature = TransactionNature.LOAN_REPAID then
    if from_acct = AccountingType.RECEIVABLE then (false, true)
    else (false, false)
  else if nature = TransactionNature.REIMBURSEMENT_RECEIVED then (false, true)
  else if nature = TransactionNature.ADJUSTMENT then (false, true)
  else (false, true)

/-- Create an entry that INCREASES the given account type
(LedgerEngine._increase_entry). -/
def _increase_entry (acct_type : AccountingType) (txn_id : Int)
    (acct_id : Int) (amount : Rat) (date : Int) (desc : String) : LedgerEntryDTO :=
  if acct_type = AccountingType.ASSET ∨ acct_type = AccountingType.RECEIVABLE then
    { transaction_id := txn_id, account_id := acct_id
    , debit := amount, credit := 0
    , entry_date := some date, description := desc }
  else
    { transaction_id := txn_id, account_id := acct_id
    , debit := 0, credit := amount
    , entry_date := some date, description := desc }

/-- Create an entry that DECREASES the given account type
(LedgerEngine._decrease_entry). -/
def _decrease_entry (acct_type : AccountingType) (txn_id : Int)
    (acct_id : Int) (amount : Rat) (date : Int) (desc : String) : LedgerEntryDTO :=
  if acct_type = AccountingType.ASSET ∨ acct_type = AccountingType.RECEIVABLE then
    { transaction_id := txn_id, account_id := acct_id
    , debit := 0, credit := amount
    , entry_date := some date, description := desc }
  else
    { transaction_id := txn_id, account_id := acct_id
    , debit := amount, credit := 0
    , entry_date := some date, description := desc }

/-- Transfer entries (LedgerEngine._transfer_entries): resolve each
endpoint's accounting class (defaulting to ASSET when the type string is
falsy), look up the impact pair, and emit one entry per endpoint. -/
def _transfer_entries (txn_id : Int) (nature : TransactionNature) (amount : Rat)
    (from_id : Option Int) (from_type : Option String)
    (to_id : Option Int) (to_type : Option String)
    (date : Int) (desc : String) : List LedgerEntryDTO :=
  let from_acct :=
    if strTruthy from_type then infer_accounting_type (from_type.getD "")
    else AccountingType.ASSET
  let to_acct :=
    if strTruthy to_type then infer_accounting_type (to_type.getD "")
    else AccountingType.ASSET
  let from_acct_id := pyOrZero from_id
  let to_acct_id := pyOrZero to_id
  let impacts := _get_transfer_impacts nature from_acct to_acct
  let from_entry :=
    if impacts.1 then _increase_entry from_acct txn_id from_acct_id amount date desc
    else _decrease_entry from_acct txn_id from_acct_id amount date desc
  let to_entry :=
    if impacts.2 then _increase_entry to_acct txn_id to_acct_id amount date desc
    else _decrease_entry to_acct txn_id to_acct_id amount date desc
  [from_entry, to_entry]

/-- The entry list create_entries builds before its sanity check,
dispatching on the transaction type. -/
def _entries_for (transaction_id : Int) (txn_type : TransactionType)
    (txn_nature : TransactionNature) (amount : Rat) (date : Int)
    (description : String)
    (to_account_id : Option Int) (to_account_type : Option String)
    (from_account_id : Option Int) (from_account_type : Option String) :
    List LedgerEntryDTO :=
  match txn_type with
  | TransactionType.INCOME =>
      _income_entries transaction_id amount to_account_id to_account_type
        date description
  | TransactionType.EXPENSE =>
      _expense_entries transaction_id amount from_account_id from_account_type
        date description
  | TransactionType.TRANSFER =>
      _transfer_entries transaction_id txn_nature amount
        from_account_id from_account_type to_account_id to_account_type
        date description

/-- The message of the ValueError raised on imbalance.  The source
interpolates the two totals into the text. -/
def msg_imbalance : String := "Ledger imbalance"

/-- Generate balanced ledger entries (LedgerEngine.create_entries): build
the entries for the type, then check debits equal credits within the
0.001 tolerance, raising ValueError otherwise. -/
def create_entries (transaction_id : Int) (txn_type : TransactionType)
    (txn_nature : TransactionNature) (amount : Rat) (date : Int)
    (description : String)
    (to_account_id : Option Int) (to_account_type : Option String)
    (from_account_id : Option Int) (from_account_type : Option String) :
    Except String (List LedgerEntryDTO) :=
  let entries := _entries_for transaction_id txn_type txn_nature amount date
    description to_account_id to_account_type from_account_id from_account_type
  if (1 : Rat)/1000 < |totalDebit entries - totalCredit entries| then
    Except.error msg_imbalance
  else
    Except.ok entries

/-- Compute the balance of an account from its ledger entries
(LedgerEngine.account_balance_from_entries). -/
def account_balance_from_entries (entries : List LedgerEntryDTO)
    (account_id : Int) (acct_type : AccountingType) : Rat :=
  let acct_entries := entries.filter (fun e => e.account_id == account_id)
  let total_debit := totalDebit acct_entries
  let total_credit := totalCredit acct_entries
  if acct_type = AccountingType.ASSET ∨ acct_type = AccountingType.RECEIVABLE then
    total_debit - total_credit
  else
    total_credit - total_debit

-- ═══ Spec-side definitions (for refinement comparison) ═════════════════

/-- The transfer-impact table exactly as the spec writes it (section 4.4):
per nature, whether the from-side and the to-side increase, with
LoanRepaid split on the from-class and a (false, true) default. -/
def transfer_impacts_spec_table (nature : TransactionNature)
    (from_class : AccountingType) (_to_class : AccountingType) : Bool × Bool :=
  match nature with
  | TransactionNature.INTERNAL_TRANSFER => (false, true)
  | TransactionNature.CC_BILL_PAYMENT => (false, false)
  | TransactionNature.LOAN_GIVEN => (false, true)
  | TransactionNature.LOAN_RECEIVED => (true, true)
  | TransactionNature.LOAN_REPAID =>
      if from_class = AccountingType.RECEIVABLE then (false, true)
      else (false, false)
  | TransactionNature.REIMBURSEMENT_RECEIVED => (false, true)
  | _ => (false, true)

-- ═══ Theorems ══════════════════════════════════════════════════════════

/-- Claim C3: for every nature and every pair of accounting classes, the
transfer-impact resolver returns exactly the pair given by the table of
the spec, including the LoanRepaid split on the from-class and the
(false, true) default for Adjustment and every other nature. -/
theorem transfer_impacts_match_spec_table :
    ∀ (nature : TransactionNature) (fc tc : AccountingType),
      _get_transfer_impacts nature fc tc = transfer_impacts_spec_table nature fc tc := by
  decide

/-- Claim C4: every transaction nature belongs to the allowed set of
exactly one transaction type, so is_valid_nature_for_type holds for
exactly one type per nature. -/
theorem nature_type_partition :
    ∀ n : TransactionNature, ∃! t : TransactionType,
      is_valid_nature_for_type t n = true := by
  unfold ExistsUnique
  decide

/-- Unfolding equation for create_entries, used to evaluate it at
concrete inputs (its rational arithmetic does not reduce definitionally). -/
theorem create_entries_eq (transaction_id : Int) (txn_type : TransactionType)
    (txn_nature : TransactionNature) (amount : Rat) (date : Int)
    (description : String)
    (to_account_id : Option Int) (to_account_type : Option String)
    (from_account_id : Option Int) (from_account_type : Option String) :
    create_entries transaction_id txn_type txn_nature amount date description
      to_account_id to_account_type from_account_id from_account_type =
    (if (1 : Rat)/1000 <
        |totalDebit (_entries_for transaction_id txn_type txn_nature amount date
            description to_account_id to_account_type from_account_id from_account_type)
          - totalCredit (_entries_for transaction_id txn_type txn_nature amount date
            description to_account_id to_account_type from_account_id from_account_type)|
     then Except.error msg_imbalance
     else Except.ok (_entries_for transaction_id txn_type txn_nature amount date
            description to_account_id to_account_type from_account_id from_account_type)) :=
  rfl

/-- Claim C8: a CcBillPayment transfer of 15000 from savings account 1 to
credit-card account 3 yields exactly a credit of 15000 on account 1 and a
debit of 15000 on account 3. -/
theorem cc_bill_payment_scenario :
    create_entries 1 TransactionType.TRANSFER TransactionNature.CC_BILL_PAYMENT
      15000 0 "" (some 3) (some "credit_card") (some 1) (some "savings")
    = Except.ok
      [ { transaction_id := 1, account_id := 1, debit := 0, credit := 15000
        , entry_date := some 0, description := "" }
      , { transaction_id := 1, account_id := 3, debit := 15000, credit := 0
        , entry_date := some 0, description := "" } ] := by
  have he : _entries_for 1 TransactionType.TRANSFER TransactionNature.CC_BILL_PAYMENT
      15000 0 "" (some 3) (some "credit_card") (some 1) (some "savings")
      = [ { transaction_id := 1, account_id := 1, debit := 0, credit := 15000
          , entry_date := some 0, description := "" }
        , { transaction_id := 1, account_id := 3, debit := 15000, credit := 0
          , entry_date := some 0, description := "" } ] := rfl
  rw [create_entries_eq, he]
  norm_num [totalDebit, totalCredit]

/-- Claim C7: borrowing 10000 (LoanReceived, payable 3 to asset 2) and
repaying 10000 (LoanRepaid, asset 2 to payable 3) leaves both accounts
with exactly zero net balance over the four resulting entries. -/
theorem borrow_repay_round_trip :
    ∃ borrow repay : List LedgerEntryDTO,
      create_entries 1 TransactionType.TRANSFER TransactionNature.LOAN_RECEIVED
        10000 0 "" (some 2) (some "savings") (some 3) (some "payable")
        = Except.ok borrow ∧
      create_entries 2 TransactionType.TRANSFER TransactionNature.LOAN_REPAID
        10000 0 "" (some 3) (some "payable") (some 2) (some "savings")
        = Except.ok repay ∧
      account_balance_from_entries (borrow ++ repay) 2 AccountingType.ASSET = 0 ∧
      account_balance_from_entries (borrow ++ repay) 3 AccountingType.PAYABLE = 0 := by
  have hb : _entries_for 1 TransactionType.TRANSFER TransactionNature.LOAN_RECEIVED
      10000 0 "" (some 2) (some "savings") (some 3) (some "payable")
      = [ { transaction_id := 1, account_id := 3, debit := 0, credit := 10000
          , entry_date := some 0, description := "" }
        , { transaction_id := 1, account_id := 2, debit := 10000, credit := 0
          , entry_date := some 0, description := "" } ] := rfl
  have hr : _entries_for 2 TransactionType.TRANSFER TransactionNature.LOAN_REPAID
      10000 0 "" (some 3) (some "payable") (some 2) (some "savings")
      = [ { transaction_id := 2, account_id := 2, debit := 0, credit := 10000
          , entry_date := some 0, description := "" }
        , { transaction_id := 2, account_id := 3, debit := 10000, credit := 0
          , entry_date := some 0, description := "" } ] := rfl
  refine
    ⟨[ { transaction_id := 1, account_id := 3, debit := 0, credit := 10000
       , entry_date := some 0, description := "" }
     , { transaction_id := 1, account_id := 2, debit := 10000, credit := 0
       , entry_date := some 0, description := "" } ],
     [ { transaction_id := 2, account_id := 2, debit := 0, credit := 10000
       , entry_date := some 0, description := "" }
     , { transaction_id := 2, account_id := 3, debit := 10000, credit := 0
       , entry_date := some 0, description := "" } ], ?_, ?_, ?_, ?_⟩
  · rw [create_entries_eq, hb]
    norm_num [totalDebit, totalCredit]
  · rw [create_entries_eq, hr]
    norm_num [totalDebit, totalCredit]
  · norm_num [account_balance_from_entries, totalDebit, totalCredit,
      List.filter_cons, List.filter_nil]
  · norm_num [account_balance_from_entries, totalDebit, totalCredit,
      List.filter_cons, List.filter_nil]

/-- Claim C2: whenever create_entries returns a list of entries (rather
than raising the imbalance error), that list is balanced within the
0.001 tolerance; an unbalanced list is never returned. -/
theorem create_entries_balanced_or_raises
    (tid : Int) (ty : TransactionType) (na : TransactionNature) (amt : Rat)
    (date : Int) (desc : String) (toid : Option Int) (toty : Option String)
    (fid : Option Int) (fty : Option String) (es : List LedgerEntryDTO)
    (h : create_entries tid ty na amt date desc toid toty fid fty = Except.ok es) :
    |totalDebit es - totalCredit es| ≤ (1 : Rat)/1000 := by
  rw [create_entries_eq] at h
  split at h
  · exact (Except.noConfusion h)
  · next hc =>
      injection h with h2
      subst h2
      exact le_of_not_lt hc

/-- Witness for claim C2 at a concrete salary income of 50000. -/
theorem create_entries_balanced_or_raises_witness :
    |totalDebit
        [ { transaction_id := 1, account_id := 1, debit := 50000, credit := 0
          , entry_date := some 0, description := "Income: " }
        , { transaction_id := 1, account_id := 0, debit := 0, credit := 50000
          , entry_date := some 0, description := "Income: " } ]
      - totalCredit
        [ { transaction_id := 1, account_id := 1, debit := 50000, credit := 0
          , entry_date := some 0, description := "Income: " }
        , { transaction_id := 1, account_id := 0, debit := 0, credit := 50000
          , entry_date := some 0, description := "Income: " } ]|
      ≤ (1 : Rat)/1000 :=
  create_entries_balanced_or_raises 1 TransactionType.INCOME TransactionNature.SALARY
    50000 0 "" (some 1) (some "savings") none none
    [ { transaction_id := 1, account_id := 1, debit := 50000, credit := 0
      , entry_date := some 0, description := "Income: " }
    , { transaction_id := 1, account_id := 0, debit := 0, credit := 50000
      , entry_date := some 0, description := "Income: " } ]
    (by
      have hE : _entries_for 1 TransactionType.INCOME TransactionNature.SALARY
          50000 0 "" (some 1) (some "savings") none none
          = [ { transaction_id := 1, account_id := 1, debit := 50000, credit := 0
              , entry_date := some 0, description := "Income: " }
            , { transaction_id := 1, account_id := 0, debit := 0, credit := 50000
              , entry_date := some 0, description := "Income: " } ] := rfl
      simp [create_entries_eq, hE, totalDebit, totalCredit])

/-- Claim C6: the strict validator raises exactly when the soft validator
returns a non-empty list, carrying the same messages in the same order,
and returns the empty list otherwise. -/
theorem validate_strict_matches_soft (txn : TransactionInput) :
    validate_transaction txn =
      (if validate_transaction_soft txn = [] then Except.ok []
       else Except.error ⟨validate_transaction_soft txn⟩) := by
  have key : validate_transaction txn =
      (if validate_transaction_soft txn ≠ [] then
        Except.error ⟨validate_transaction_soft txn⟩
       else Except.ok (validate_transaction_soft txn)) := rfl
  rw [key]
  by_cases h : validate_transaction_soft txn = []
  · simp [h]
  · simp [h]

/-- Exactly one of the entry's debit and credit fields is non-zero. -/
def singleSided (e : LedgerEntryDTO) : Prop :=
  (e.debit ≠ 0 ∧ e.credit = 0) ∨ (e.debit = 0 ∧ e.credit ≠ 0)

instance singleSidedDecidable : DecidablePred singleSided := fun e =>
  inferInstanceAs
    (Decidable ((e.debit ≠ 0 ∧ e.credit = 0) ∨ (e.debit = 0 ∧ e.credit ≠ 0)))

/-- An increase entry for a non-zero amount is single sided. -/
theorem increase_entry_single_sided (a : AccountingType) (tid aid : Int)
    (amt : Rat) (date : Int) (desc : String) (h : amt ≠ 0) :
    singleSided (_increase_entry a tid aid amt date desc) := by
  unfold singleSided _increase_entry
  split
  · exact Or.inl ⟨h, rfl⟩
  · exact Or.inr ⟨rfl, h⟩

/-- A decrease entry for a non-zero amount is single sided. -/
theorem decrease_entry_single_sided (a : AccountingType) (tid aid : Int)
    (amt : Rat) (date : Int) (desc : String) (h : amt ≠ 0) :
    singleSided (_decrease_entry a tid aid amt date desc) := by
  unfold singleSided _decrease_entry
  split
  · exact Or.inr ⟨rfl, h⟩
  · exact Or.inl ⟨h, rfl⟩

/-- Whichever of the increase and decrease entry an impact flag selects,
it is single sided for a non-zero amount. -/
theorem ite_entry_single_sided (b : Bool) (a : AccountingType) (tid aid : Int)
    (amt : Rat) (date : Int) (desc : String) (h : amt ≠ 0) :
    singleSided (if b = true then _increase_entry a tid aid amt date desc
                 else _decrease_entry a tid aid amt date desc) := by
  cases b
  · simpa using decrease_entry_single_sided a tid aid amt date desc h
  · simpa using increase_entry_single_sided a tid aid amt date desc h

/-- Both transfer entries for a non-zero amount are single sided. -/
theorem transfer_entries_single_sided (tid : Int) (na : TransactionNature)
    (amt : Rat) (fid : Option Int) (fty : Option String)
    (toid : Option Int) (toty : Option String) (date : Int) (desc : String)
    (h : amt ≠ 0) :
    ∀ e ∈ _transfer_entries tid na amt fid fty toid toty date desc,
      singleSided e := by
  intro e he
  simp only [_transfer_entries, List.mem_cons, List.not_mem_nil, or_false] at he
  rcases he with rfl | rfl
  · exact ite_entry_single_sided _ _ _ _ _ _ _ h
  · exact ite_entry_single_sided _ _ _ _ _ _ _ h

/-- Claim C9 amended: every entry produced by create_entries for a
NON-ZERO amount has exactly one of debit and credit non-zero.  (At
amount 0 the claim fails, see the counterexample below.) -/
theorem entries_exactly_one_side
    (tid : Int) (ty : TransactionType) (na : TransactionNature) (amt : Rat)
    (date : Int) (desc : String) (toid : Option Int) (toty : Option String)
    (fid : Option Int) (fty : Option String) (es : List LedgerEntryDTO)
    (hamt : amt ≠ 0)
    (h : create_entries tid ty na amt date desc toid toty fid fty = Except.ok es) :
    ∀ e ∈ es, singleSided e := by
  rw [create_entries_eq] at h
  split at h
  · exact (Except.noConfusion h)
  · injection h with h2
    subst h2
    cases ty
    case INCOME =>
      intro e he
      simp only [_entries_for, _income_entries, List.mem_cons,
        List.not_mem_nil, or_false] at he
      rcases he with rfl | rfl
      · exact Or.inl ⟨hamt, rfl⟩
      · exact Or.inr ⟨rfl, hamt⟩
    case EXPENSE =>
      intro e he
      simp only [_entries_for, _expense_entries, List.mem_cons,
        List.not_mem_nil, or_false] at he
      rcases he with rfl | rfl
      · exact Or.inl ⟨hamt, rfl⟩
      · exact Or.inr ⟨rfl, hamt⟩
    case TRANSFER =>
      simp only [_entries_for]
      exact transfer_entries_single_sided tid na amt fid fty toid toty
        date desc hamt

/-- Witness for the amended claim C9 at a concrete salary income of 50000. -/
theorem entries_exactly_one_side_witness :
    singleSided { transaction_id := 1, account_id := 1, debit := 50000
                , credit := 0, entry_date := some 0, description := "Income: " } ∧
    singleSided { transaction_id := 1, account_id := 0, debit := 0
                , credit := 50000, entry_date := some 0, description := "Income: " } := by
  have h := entries_exactly_one_side 1 TransactionType.INCOME TransactionNature.SALARY
    50000 0 "" (some 1) (some "savings") none none
    [ { transaction_id := 1, account_id := 1, debit := 50000, credit := 0
      , entry_date := some 0, description := "Income: " }
    , { transaction_id := 1, account_id := 0, debit := 0, credit := 50000
      , entry_date := some 0, description := "Income: " } ]
    (by norm_num)
    (by
      have hE : _entries_for 1 TransactionType.INCOME TransactionNature.SALARY
          50000 0 "" (some 1) (some "savings") none none
          = [ { transaction_id := 1, account_id := 1, debit := 50000, credit := 0
              , entry_date := some 0, description := "Income: " }
            , { transaction_id := 1, account_id := 0, debit := 0, credit := 50000
              , entry_date := some 0, description := "Income: " } ] := rfl
      simp [create_entries_eq, hE, totalDebit, totalCredit])
  exact ⟨h _ (by simp), h _ (by simp)⟩

/-- Counterexample to claim C9 as stated: at amount 0 (a value on which
create_entries still returns), the income entries have debit and credit
both zero, so not exactly one side is non-zero. -/
theorem entries_exactly_one_side_counterexample :
    ∃ es, create_entries 1 TransactionType.INCOME TransactionNature.SALARY
        0 0 "" (some 1) (some "savings") none none = Except.ok es ∧
      ∃ e ∈ es, ¬ singleSided e := by
  refine ⟨[ { transaction_id := 1, account_id := 1, debit := 0, credit := 0
            , entry_date := some 0, description := "Income: " }
          , { transaction_id := 1, account_id := 0, debit := 0, credit := 0
            , entry_date := some 0, description := "Income: " } ], ?_, ?_⟩
  · have hE : _entries_for 1 TransactionType.INCOME TransactionNature.SALARY
        0 0 "" (some 1) (some "savings") none none
        = [ { transaction_id := 1, account_id := 1, debit := 0, credit := 0
            , entry_date := some 0, description := "Income: " }
          , { transaction_id := 1, account_id := 0, debit := 0, credit := 0
            , entry_date := some 0, description := "Income: " } ] := rfl
    simp [create_entries_eq, hE, totalDebit, totalCredit]
  · refine ⟨{ transaction_id := 1, account_id := 1, debit := 0, credit := 0
            , entry_date := some 0, description := "Income: " }, by simp, ?_⟩
    simp [singleSided]

/-- Claim C5: for a LoanRepaid transfer whose endpoint account-type
strings are both present, the class-pairing rule accepts exactly the
pairs (Receivable, Asset) and (Asset, Payable), and appends the
LOAN_REPAID violation message for every other pair. -/
theorem loan_repaid_pairing (txn : TransactionInput) (errors : List String)
    (hty : txn.transaction_type = TransactionType.TRANSFER)
    (hna : txn.transaction_nature = TransactionNature.LOAN_REPAID)
    (hf : strTruthy txn.from_account_type = true)
    (ht : strTruthy txn.to_account_type = true) :
    _check_account_type_movements txn errors =
      (if (infer_accounting_type (txn.from_account_type.getD ""),
           infer_accounting_type (txn.to_account_type.getD "")) ∈
          [ (AccountingType.RECEIVABLE, AccountingType.ASSET)
          , (AccountingType.ASSET, AccountingType.PAYABLE) ]
       then errors
       else errors ++ [msg_loan_repaid]) := by
  by_cases hc : (infer_accounting_type (txn.from_account_type.getD ""),
      infer_accounting_type (txn.to_account_type.getD "")) ∈
      [ (AccountingType.RECEIVABLE, AccountingType.ASSET)
      , (AccountingType.ASSET, AccountingType.PAYABLE) ]
  · simp [_check_account_type_movements, hty, hna, hf, ht, hc]
  · simp [_check_account_type_movements, hty, hna, hf, ht, hc]

/-- A LoanRepaid transfer between two asset accounts, an invalid pairing. -/
def loan_repaid_bad_pair_txn : TransactionInput :=
  { transaction_type := TransactionType.TRANSFER
  , transaction_nature := TransactionNature.LOAN_REPAID
  , amount := 1000, currency := "INR"
  , from_account_id := some 1, to_account_id := some 2
  , from_account_type := some "savings", to_account_type := some "current"
  , category := none, counterparty := some "friend", notes := none }

/-- Witness for claim C5 at a concrete Asset-to-Asset repayment. -/
theorem loan_repaid_pairing_witness :
    _check_account_type_movements loan_repaid_bad_pair_txn [] =
      (if (infer_accounting_type (loan_repaid_bad_pair_txn.from_account_type.getD ""),
           infer_accounting_type (loan_repaid_bad_pair_txn.to_account_type.getD "")) ∈
          [ (AccountingType.RECEIVABLE, AccountingType.ASSET)
          , (AccountingType.ASSET, AccountingType.PAYABLE) ]
       then []
       else [] ++ [msg_loan_repaid]) :=
  loan_repaid_pairing loan_repaid_bad_pair_txn [] rfl rfl rfl rfl

/-- Claim C10: account presence is decided by Python truthiness of the id,
so id 0 counts as absent: an Income intent with from_account_id 0 yields
no income-has-from-account violation, and a Transfer intent with either
id 0 yields the missing-accounts violation although both ids are given. -/
theorem zero_account_id_is_absent :
    (∀ (txn : TransactionInput) (errors : List String),
        txn.transaction_type = TransactionType.INCOME →
        txn.from_account_id = some 0 →
        _check_income_no_from_account txn errors = errors) ∧
    (∀ (txn : TransactionInput) (errors : List String),
        txn.transaction_type = TransactionType.TRANSFER →
        (txn.from_account_id = some 0 ∨ txn.to_account_id = some 0) →
        _check_transfer_has_both_accounts txn errors
          = errors ++ [msg_transfer_accounts]) := by
  constructor
  · intro txn errors hty hfrom
    simp [_check_income_no_from_account, hty, hfrom, intTruthy]
  · intro txn errors hty h
    rcases h with h | h <;>
      simp [_check_transfer_has_both_accounts, hty, h, intTruthy]

/-- An income intent whose from_account_id is the virtual-bucket id 0. -/
def income_from_zero_txn : TransactionInput :=
  { transaction_type := TransactionType.INCOME
  , transaction_nature := TransactionNature.SALARY
  , amount := 10, currency := "INR"
  , from_account_id := some 0, to_account_id := some 1
  , from_account_type := none, to_account_type := some "savings"
  , category := none, counterparty := none, notes := none }

/-- A transfer intent whose from_account_id is the virtual-bucket id 0. -/
def transfer_from_zero_txn : TransactionInput :=
  { transaction_type := TransactionType.TRANSFER
  , transaction_nature := TransactionNature.INTERNAL_TRANSFER
  , amount := 10, currency := "INR"
  , from_account_id := some 0, to_account_id := some 2
  , from_account_type := some "savings", to_account_type := some "current"
  , category := none, counterparty := none, notes := none }

/-- Witness for claim C10 at the two concrete id-0 intents. -/
theorem zero_account_id_is_absent_witness :
    _check_income_no_from_account income_from_zero_txn [] = [] ∧
    _check_transfer_has_both_accounts transfer_from_zero_txn []
      = [] ++ [msg_transfer_accounts] :=
  ⟨zero_account_id_is_absent.1 income_from_zero_txn [] rfl rfl,
   zero_account_id_is_absent.2 transfer_from_zero_txn [] rfl (Or.inl rfl)⟩

/-- A transfer intent that passes every validation rule: a reimbursement
received from a credit_card (LIABILITY) account into a savings (ASSET)
account.  The class-pairing rule only constrains the destination of a
REIMBURSEMENT_RECEIVED transfer. -/
def reimbursement_from_credit_card : TransactionInput :=
  { transaction_type := TransactionType.TRANSFER
  , transaction_nature := TransactionNature.REIMBURSEMENT_RECEIVED
  , amount := 100, currency := "INR"
  , from_account_id := some 1, to_account_id := some 2
  , from_account_type := some "credit_card", to_account_type := some "savings"
  , category := none, counterparty := none, notes := none }

/-- Claim C1 fails on the code: this intent passes soft validation with no
violations, yet create_entries on its fields generates a LIABILITY
decrease (debit) and an ASSET increase (debit), totalling debit 200
against credit 0, and raises the imbalance error instead of returning
balanced entries. -/
theorem valid_intent_raises_imbalance :
    validate_transaction_soft reimbursement_from_credit_card = [] ∧
    create_entries 1 TransactionType.TRANSFER TransactionNature.REIMBURSEMENT_RECEIVED
      100 0 "" (some 2) (some "savings") (some 1) (some "credit_card")
      = Except.error msg_imbalance := by
  constructor
  · rfl
  · have hE : _entries_for 1 TransactionType.TRANSFER
        TransactionNature.REIMBURSEMENT_RECEIVED
        100 0 "" (some 2) (some "savings") (some 1) (some "credit_card")
        = [ { transaction_id := 1, account_id := 1, debit := 100, credit := 0
            , entry_date := some 0, description := "" }
          , { transaction_id := 1, account_id := 2, debit := 100, credit := 0
            , entry_date := some 0, description := "" } ] := rfl
    rw [create_entries_eq, hE]
    norm_num [totalDebit, totalCredit]
